import Mathlib

/-!
Shallow embedding of the Wevolve landing-page frontend.

The repository contains two variants of the same page:
* `Home` (`page.tsx`, Tailwind classes), and
* `App`  (`App.jsx`, MUI components).

Each variant holds two pieces of client state, `healthStatus : HealthStatus | null`
and `loading : boolean`, issues one `axios.get` to `API_BASE + "/health"` from a
`useEffect` with an empty dependency array, and renders a status badge from that
state.  We embed the response bodies and the stored state as JSON-like values,
the render expressions as pure functions, and the mount/effect behaviour as an
executable trace machine.
-/

/-- JSON-like values: the shape of an axios-parsed response body (`res.data`)
and of the stored `healthStatus` state.  `null` is JSON null; an absent field is
modelled by `Option.none` at the access site, mirroring JavaScript `undefined`. -/
inductive JsonVal : Type where
  | null : JsonVal
  | str (s : String) : JsonVal
  | num (n : Int) : JsonVal
  | obj (fields : List (String × JsonVal)) : JsonVal

/-- First-match lookup in an object's field list (JavaScript object literals in
this code have no duplicate keys). -/
def lookupField : List (String × JsonVal) → String → Option JsonVal
  | [], _ => none
  | (k, v) :: rest, key => if k = key then some v else lookupField rest key

/-- JavaScript property access `o.k`: a field of an object, `undefined`
(here `none`) on a missing field or a non-object value. -/
def getField : JsonVal → String → Option JsonVal
  | JsonVal.obj fields, key => lookupField fields key
  | _, _ => none

/-- The condition `healthStatus?.status === 'healthy'` used by both variants:
optional chaining on the possibly-null state, then strict string comparison.
Any of: null state, missing `status` field, or a non-string or non-`"healthy"`
`status`, yields `false`. -/
def statusIsHealthy : Option JsonVal → Bool
  | none => false
  | some w =>
    match getField w "status" with
    | some (JsonVal.str s) => s == "healthy"
    | _ => false

/-- The spec-side description of the positive case: the state is resolved to a
value whose `status` field is exactly the string `"healthy"`. -/
def healthyResolved (healthStatus : Option JsonVal) : Prop :=
  ∃ w, healthStatus = some w ∧ getField w "status" = some (JsonVal.str "healthy")

namespace Home

/-- `const API_BASE = 'http://localhost:8000'` (page.tsx line 7). -/
def API_BASE : String := "http://localhost:8000"

/-- The request URL `` `${API_BASE}/health` `` (page.tsx line 20). -/
def healthUrl : String := API_BASE ++ "/health"

/-- The client-synthesized fallback
`{ status: 'offline', message: 'Backend not running' }` (page.tsx line 26). -/
def offlineFallback : JsonVal :=
  JsonVal.obj [("status", JsonVal.str "offline"), ("message", JsonVal.str "Backend not running")]

/-- Badge text (page.tsx line 56):
`loading ? 'Connecting...' : healthStatus?.status === 'healthy' ? '🟢 Backend Connected' : '🔴 Backend Offline'`. -/
def badgeText (loading : Bool) (healthStatus : Option JsonVal) : String :=
  if loading then "Connecting..."
  else if statusIsHealthy healthStatus then "🟢 Backend Connected"
  else "🔴 Backend Offline"

/-- Badge CSS classes (page.tsx lines 50–55): neutral muted classes while
loading, green when healthy, red otherwise. -/
def badgeClass (loading : Bool) (healthStatus : Option JsonVal) : String :=
  if loading then "border-text-muted text-text-muted"
  else if statusIsHealthy healthStatus then "border-green-500 text-green-500"
  else "border-red-500 text-red-500"

end Home

namespace App

/-- `const API_BASE = 'http://localhost:8000'` (App.jsx line 155). -/
def API_BASE : String := "http://localhost:8000"

/-- The request URL `` `${API_BASE}/health` `` (App.jsx line 163). -/
def healthUrl : String := API_BASE ++ "/health"

/-- The client-synthesized fallback
`{ status: 'offline', message: 'Backend not running' }` (App.jsx line 169). -/
def offlineFallback : JsonVal :=
  JsonVal.obj [("status", JsonVal.str "offline"), ("message", JsonVal.str "Backend not running")]

/-- Chip label (App.jsx line 248):
`loading ? 'Connecting...' : healthStatus?.status === 'healthy' ? '🟢 Backend Connected' : '🔴 Backend Offline'`. -/
def chipLabel (loading : Bool) (healthStatus : Option JsonVal) : String :=
  if loading then "Connecting..."
  else if statusIsHealthy healthStatus then "🟢 Backend Connected"
  else "🔴 Backend Offline"

/-- Chip `borderColor` (App.jsx line 252):
`healthStatus?.status === 'healthy' ? 'success.main' : 'error.main'`.
Note that, unlike the label, this expression does not consult `loading`. -/
def chipBorderColor (healthStatus : Option JsonVal) : String :=
  if statusIsHealthy healthStatus then "success.main" else "error.main"

/-- Chip `color` (App.jsx line 253): the same expression as the border colour. -/
def chipTextColor (healthStatus : Option JsonVal) : String :=
  if statusIsHealthy healthStatus then "success.main" else "error.main"

end App

/-- Causes a health request can fail with; the catch callback in both variants
takes no parameter, so these are never inspected by the code. -/
inductive NetError : Type where
  | dnsFailure : NetError
  | connectionRefused : NetError
  | httpStatus (code : Nat) : NetError
  | malformedBody : NetError
  | timeout : NetError

/-- Settlement of the axios promise: fulfilled with a parsed body, or rejected. -/
inductive FetchResult : Type where
  | success (body : JsonVal) : FetchResult
  | failure (err : NetError) : FetchResult

/-- Events after mount: a re-render of the page shell, or the settlement of the
in-flight health request. -/
inductive Event : Type where
  | rerender : Event
  | settle (r : FetchResult) : Event

/-- A frontend variant, as seen by the effect: its request URL and its
synthesized offline fallback. -/
structure Variant : Type where
  url : String
  fallback : JsonVal

/-- One mounted page view.  `requests` records the URLs of the HTTP GETs issued
so far, `hsWrites` the number of `setHealthStatus` calls performed, and
`pendingRequest` whether the health promise is still unsettled. -/
structure PageView : Type where
  healthStatus : Option JsonVal
  loading : Bool
  pendingRequest : Bool
  requests : List String
  hsWrites : Nat

/-- Mounting: state starts as (`null`, `loading = true`) and the `useEffect`
with `[]` dependencies runs exactly once, issuing the single GET. -/
def mount (v : Variant) : PageView :=
  { healthStatus := none, loading := true, pendingRequest := true
    requests := [v.url], hsWrites := 0 }

/-- Event step.  A re-render does not re-run the effect (empty dependency
array) and render is pure, so the state is untouched.  A promise settles at
most once, so a settlement is a no-op unless the request is still pending; a
pending settlement runs the `.then` handler (store `res.data` verbatim, clear
`loading`) or the `.catch` handler (store the synthesized fallback, clear
`loading`), the latter ignoring the rejection value as the source callback
takes no parameter. -/
def stepEv (v : Variant) (p : PageView) : Event → PageView
  | Event.rerender => p
  | Event.settle r =>
    if p.pendingRequest then
      match r with
      | FetchResult.success body =>
        { p with healthStatus := some body, loading := false
                 pendingRequest := false, hsWrites := p.hsWrites + 1 }
      | FetchResult.failure _ =>
        { p with healthStatus := some v.fallback, loading := false
                 pendingRequest := false, hsWrites := p.hsWrites + 1 }
    else p

/-- A whole page view: mount, then a sequence of events. -/
def run (v : Variant) (evs : List Event) : PageView :=
  evs.foldl (stepEv v) (mount v)

/-- The `Home` (page.tsx) variant's effect data. -/
def Home.variant : Variant :=
  { url := Home.healthUrl, fallback := Home.offlineFallback }

/-- The `App` (App.jsx) variant's effect data. -/
def App.variant : Variant :=
  { url := App.healthUrl, fallback := App.offlineFallback }

/-- Modelled from the spec: the FastAPI backend's `/health` endpoint is not
among the provided source files; per the spec the healthy backend responds with
the JSON object `{ "status": "healthy" }`, which carries no `message` field. -/
def backendHealthBody : JsonVal :=
  JsonVal.obj [("status", JsonVal.str "healthy")]

/-- An event is consistent with the modelled backend when any successful
settlement carries the modelled `/health` body. -/
def modelledBackendEvent : Event → Prop
  | Event.settle (FetchResult.success body) => body = backendHealthBody
  | _ => True

/-- A concrete already-settled page view, used to exercise the frozen-state
property at a specific input. -/
def settledExample : PageView :=
  { healthStatus := some Home.offlineFallback, loading := false
    pendingRequest := false, requests := [Home.healthUrl], hsWrites := 1 }

/-- A settled page view (promise no longer pending) is frozen: no later event
changes anything. -/
theorem stepEv_of_settled (v : Variant) (p : PageView) (e : Event)
    (h : p.pendingRequest = false) : stepEv v p e = p := by
  cases e with
  | rerender => rfl
  | settle r => cases r <;> simp [stepEv, h]

/-- No event issues a further request: the request log is fixed at mount. -/
theorem requests_stepEv (v : Variant) (p : PageView) (e : Event) :
    (stepEv v p e).requests = p.requests := by
  cases e with
  | rerender => rfl
  | settle r => cases r <;> cases h : p.pendingRequest <;> simp [stepEv, h]

/-- Generic invariant preservation along a run, with a per-event side
condition `Q`. -/
theorem run_inv (v : Variant) (P : PageView → Prop) (Q : Event → Prop)
    (hmount : P (mount v))
    (hstep : ∀ p e, Q e → P p → P (stepEv v p e)) :
    ∀ evs : List Event, (∀ e ∈ evs, Q e) → P (run v evs) := by
  have key : ∀ (evs : List Event) (p : PageView),
      (∀ e ∈ evs, Q e) → P p → P (List.foldl (stepEv v) p evs) := by
    intro evs
    induction evs with
    | nil => intro p _ hp; simpa using hp
    | cons e rest ih =>
      intro p hq hp
      simp only [List.foldl_cons]
      exact ih _ (fun x hx => hq x (List.mem_cons_of_mem _ hx))
        (hstep _ _ (hq e (List.mem_cons_self _ _)) hp)
  intro evs hq
  exact key evs (mount v) hq hmount

/-- Unfolding a run one event at a time from the right. -/
theorem run_append_one (v : Variant) (evs : List Event) (e : Event) :
    run v (evs ++ [e]) = stepEv v (run v evs) e := by
  simp [run, List.foldl_append]

/-- Re-renders alone leave the page view exactly as mounted. -/
theorem run_replicate_rerender (v : Variant) (n : Nat) :
    run v (List.replicate n Event.rerender) = mount v := by
  induction n with
  | zero => rfl
  | succ n ih =>
    simpa [run, List.replicate_succ, List.foldl_cons, stepEv] using ih

/-- Every run's request log is exactly the single GET issued at mount. -/
theorem run_requests (v : Variant) (evs : List Event) :
    (run v evs).requests = [v.url] := by
  exact run_inv v (fun p => p.requests = [v.url]) (fun _ => True) rfl
    (fun p e _ hp => by
      show (stepEv v p e).requests = [v.url]
      rw [requests_stepEv]; exact hp) evs (fun _ _ => trivial)

/-- In every reachable page view, `healthStatus` has been written at most once,
and not at all while the request is still pending. -/
theorem run_hsWrites (v : Variant) (evs : List Event) :
    (run v evs).hsWrites ≤ 1 ∧ ((run v evs).pendingRequest = true → (run v evs).hsWrites = 0) := by
  exact run_inv v (fun p => p.hsWrites ≤ 1 ∧ (p.pendingRequest = true → p.hsWrites = 0))
    (fun _ => True)
    ⟨by simp [mount], fun _ => rfl⟩
    (fun p e _ hp => by
      cases e with
      | rerender => exact hp
      | settle r =>
        cases hpend : p.pendingRequest with
        | false => simpa [stepEv_of_settled v p _ hpend] using hp
        | true =>
          have h0 : p.hsWrites = 0 := hp.2 hpend
          cases r <;> simp [stepEv, hpend, h0])
    evs (fun _ _ => trivial)

/-- A non-`"healthy"` (or absent, or non-string) `status` field renders as not
healthy. -/
theorem statusIsHealthy_eq_false (body : JsonVal)
    (h : getField body "status" ≠ some (JsonVal.str "healthy")) :
    statusIsHealthy (some body) = false := by
  cases hst : getField body "status" with
  | none => simp [statusIsHealthy, hst]
  | some w =>
    cases w with
    | str s =>
      have hs : s ≠ "healthy" := by
        intro he
        exact h (by rw [hst, he])
      simp [statusIsHealthy, hst, hs]
    | null => simp [statusIsHealthy, hst]
    | num n => simp [statusIsHealthy, hst]
    | obj fields => simp [statusIsHealthy, hst]

/-- A `status` field equal to the string `"healthy"` renders as healthy. -/
theorem statusIsHealthy_eq_true (body : JsonVal)
    (h : getField body "status" = some (JsonVal.str "healthy")) :
    statusIsHealthy (some body) = true := by
  simp [statusIsHealthy, h]

/-- The boolean check of the code agrees with the spec-side description of the
positive case. -/
theorem statusIsHealthy_iff (healthStatus : Option JsonVal) :
    statusIsHealthy healthStatus = true ↔ healthyResolved healthStatus := by
  constructor
  · intro h
    cases healthStatus with
    | none => simp [statusIsHealthy] at h
    | some w =>
      refine ⟨w, rfl, ?_⟩
      cases hst : getField w "status" with
      | none => simp [statusIsHealthy, hst] at h
      | some u =>
        cases u with
        | str s =>
          simp only [statusIsHealthy, hst, beq_iff_eq] at h
          rw [h]
        | null => simp [statusIsHealthy, hst] at h
        | num n => simp [statusIsHealthy, hst] at h
        | obj fields => simp [statusIsHealthy, hst] at h
  · rintro ⟨w, rfl, hw⟩
    exact statusIsHealthy_eq_true w hw

/-- C1: the badge text is a pure function of the display state in both
variants: `"Connecting..."` while loading; the fixed connected string exactly
when the resolved `status` field is the string `"healthy"`; the fixed offline
string otherwise; and no other text is ever produced. -/
theorem claim_C1_badge_text_pure :
    (∀ healthStatus : Option JsonVal,
        Home.badgeText true healthStatus = "Connecting..."
        ∧ App.chipLabel true healthStatus = "Connecting...")
    ∧ (∀ healthStatus : Option JsonVal, healthyResolved healthStatus →
        Home.badgeText false healthStatus = "🟢 Backend Connected"
        ∧ App.chipLabel false healthStatus = "🟢 Backend Connected")
    ∧ (∀ healthStatus : Option JsonVal, ¬ healthyResolved healthStatus →
        Home.badgeText false healthStatus = "🔴 Backend Offline"
        ∧ App.chipLabel false healthStatus = "🔴 Backend Offline")
    ∧ (∀ (loading : Bool) (healthStatus : Option JsonVal),
        Home.badgeText loading healthStatus = "Connecting..."
        ∨ Home.badgeText loading healthStatus = "🟢 Backend Connected"
        ∨ Home.badgeText loading healthStatus = "🔴 Backend Offline")
    ∧ (∀ (loading : Bool) (healthStatus : Option JsonVal),
        App.chipLabel loading healthStatus = "Connecting..."
        ∨ App.chipLabel loading healthStatus = "🟢 Backend Connected"
        ∨ App.chipLabel loading healthStatus = "🔴 Backend Offline") := by
  refine ⟨fun hs => ⟨rfl, rfl⟩, ?_, ?_, ?_, ?_⟩
  · intro hs hres
    have h : statusIsHealthy hs = true := (statusIsHealthy_iff hs).mpr hres
    exact ⟨by simp [Home.badgeText, h], by simp [App.chipLabel, h]⟩
  · intro hs hres
    have h : statusIsHealthy hs = false := by
      cases hb : statusIsHealthy hs with
      | false => rfl
      | true => exact absurd ((statusIsHealthy_iff hs).mp hb) hres
    exact ⟨by simp [Home.badgeText, h], by simp [App.chipLabel, h]⟩
  · intro l hs
    cases l with
    | true => exact Or.inl rfl
    | false =>
      cases h : statusIsHealthy hs with
      | true => exact Or.inr (Or.inl (by simp [Home.badgeText, h]))
      | false => exact Or.inr (Or.inr (by simp [Home.badgeText, h]))
  · intro l hs
    cases l with
    | true => exact Or.inl rfl
    | false =>
      cases h : statusIsHealthy hs with
      | true => exact Or.inr (Or.inl (by simp [App.chipLabel, h]))
      | false => exact Or.inr (Or.inr (by simp [App.chipLabel, h]))

/-- C1 witness: at the concrete resolved state `{ status: "healthy" }`, both
variants render the fixed connected string. -/
theorem claim_C1_badge_text_pure_witness :
    Home.badgeText false (some (JsonVal.obj [("status", JsonVal.str "healthy")]))
      = "🟢 Backend Connected"
    ∧ App.chipLabel false (some (JsonVal.obj [("status", JsonVal.str "healthy")]))
      = "🟢 Backend Connected" :=
  claim_C1_badge_text_pure.2.1 (some (JsonVal.obj [("status", JsonVal.str "healthy")]))
    ⟨JsonVal.obj [("status", JsonVal.str "healthy")], rfl, rfl⟩

/-- C2: whatever the cause of the rejection, and however many re-renders
precede it, the resolved state is the synthesized fallback whose `status` is
`"offline"` and whose `message` is `"Backend not running"`, loading ends, and
the badge carries the negative style (red classes / `error.main`) in both
variants. -/
theorem claim_C2_failure_path (n : Nat) (err : NetError) :
    (run Home.variant (List.replicate n Event.rerender
        ++ [Event.settle (FetchResult.failure err)])).healthStatus
      = some Home.offlineFallback
    ∧ (run Home.variant (List.replicate n Event.rerender
        ++ [Event.settle (FetchResult.failure err)])).loading = false
    ∧ (run App.variant (List.replicate n Event.rerender
        ++ [Event.settle (FetchResult.failure err)])).healthStatus
      = some App.offlineFallback
    ∧ (run App.variant (List.replicate n Event.rerender
        ++ [Event.settle (FetchResult.failure err)])).loading = false
    ∧ getField Home.offlineFallback "status" = some (JsonVal.str "offline")
    ∧ getField Home.offlineFallback "message" = some (JsonVal.str "Backend not running")
    ∧ Home.badgeText false (some Home.offlineFallback) = "🔴 Backend Offline"
    ∧ Home.badgeClass false (some Home.offlineFallback) = "border-red-500 text-red-500"
    ∧ App.chipLabel false (some App.offlineFallback) = "🔴 Backend Offline"
    ∧ App.chipBorderColor (some App.offlineFallback) = "error.main"
    ∧ App.chipTextColor (some App.offlineFallback) = "error.main" := by
  rw [run_append_one, run_append_one, run_replicate_rerender, run_replicate_rerender]
  exact ⟨rfl, rfl, rfl, rfl, rfl, rfl, rfl, rfl, rfl, rfl, rfl⟩

/-- C3: each mount issues exactly one GET, to the fixed URL
`http://localhost:8000/health`, and no later event (re-render or settlement)
ever adds a request, in both variants. -/
theorem claim_C3_single_get :
    Home.healthUrl = "http://localhost:8000/health"
    ∧ App.healthUrl = "http://localhost:8000/health"
    ∧ (∀ evs : List Event, (run Home.variant evs).requests = [Home.healthUrl])
    ∧ (∀ evs : List Event, (run App.variant evs).requests = [App.healthUrl]) := by
  refine ⟨by decide, by decide, ?_, ?_⟩
  · intro evs; exact run_requests Home.variant evs
  · intro evs; exact run_requests App.variant evs

/-- C4 counterexample: at the freshly mounted state of the `App` variant
(`loading = true`, `healthStatus = null`), the chip's border and text colours
equal `error.main` — the very value they take in the resolved offline state —
so the initial badge carries the negative visual style, not a neutral one. -/
theorem claim_C4_counterexample :
    (mount App.variant).loading = true
    ∧ (mount App.variant).healthStatus = none
    ∧ App.chipBorderColor (mount App.variant).healthStatus = "error.main"
    ∧ App.chipTextColor (mount App.variant).healthStatus = "error.main"
    ∧ App.chipBorderColor (some App.offlineFallback) = "error.main"
    ∧ App.chipTextColor (some App.offlineFallback) = "error.main" :=
  ⟨rfl, rfl, rfl, rfl, rfl, rfl⟩

/-- C4 (amended): on initial render both variants show the fixed
`"Connecting..."` text; the `Home` variant's badge carries the neutral muted
classes, but the `App` variant's chip colour expression does not consult
`loading` and already shows the negative `error.main` colours while loading. -/
theorem claim_C4_initial_render (healthStatus : Option JsonVal) :
    Home.badgeText true healthStatus = "Connecting..."
    ∧ App.chipLabel true healthStatus = "Connecting..."
    ∧ Home.badgeClass true healthStatus = "border-text-muted text-text-muted"
    ∧ App.chipBorderColor none = "error.main"
    ∧ App.chipTextColor none = "error.main" :=
  ⟨rfl, rfl, rfl, rfl, rfl⟩

/-- Along a run whose successful settlements all carry the modelled backend
body, the stored `healthStatus` is only ever that body or the variant's
synthesized fallback. -/
theorem run_modelled_healthStatus (v : Variant) (evs : List Event)
    (hq : ∀ e ∈ evs, modelledBackendEvent e) :
    ∀ w : JsonVal, (run v evs).healthStatus = some w →
      w = backendHealthBody ∨ w = v.fallback := by
  refine run_inv v
    (fun p => ∀ u, p.healthStatus = some u → u = backendHealthBody ∨ u = v.fallback)
    modelledBackendEvent ?_ ?_ evs hq
  · intro u hu
    simp [mount] at hu
  · intro p e hqe hp
    cases e with
    | rerender => exact hp
    | settle r =>
      cases hpend : p.pendingRequest with
      | false =>
        intro u hu
        rw [stepEv_of_settled v p _ hpend] at hu
        exact hp u hu
      | true =>
        cases r with
        | success body =>
          intro u hu
          simp [stepEv, hpend] at hu
          subst hu
          exact Or.inl hqe
        | failure err =>
          intro u hu
          simp [stepEv, hpend] at hu
          subst hu
          exact Or.inr rfl

/-- C5: against the spec-modelled backend (whose `/health` body is
`{ "status": "healthy" }`), every resolved `healthStatus` value is either that
body or the client-synthesized fallback, the successful body carries no
`message` field, and only the synthesized offline fallback carries one — in
both variants. -/
theorem claim_C5_message_only_offline :
    getField backendHealthBody "message" = none
    ∧ getField Home.offlineFallback "message" = some (JsonVal.str "Backend not running")
    ∧ getField App.offlineFallback "message" = some (JsonVal.str "Backend not running")
    ∧ (∀ evs : List Event, (∀ e ∈ evs, modelledBackendEvent e) →
        ∀ w : JsonVal, (run Home.variant evs).healthStatus = some w →
          w = backendHealthBody ∨ w = Home.offlineFallback)
    ∧ (∀ evs : List Event, (∀ e ∈ evs, modelledBackendEvent e) →
        ∀ w : JsonVal, (run App.variant evs).healthStatus = some w →
          w = backendHealthBody ∨ w = App.offlineFallback) :=
  ⟨rfl, rfl, rfl,
    fun evs hq => run_modelled_healthStatus Home.variant evs hq,
    fun evs hq => run_modelled_healthStatus App.variant evs hq⟩

/-- C5 witness: the run that settles successfully with the modelled backend
body resolves to that body, which is one of the two permitted values. -/
theorem claim_C5_message_only_offline_witness :
    backendHealthBody = backendHealthBody ∨ backendHealthBody = Home.offlineFallback :=
  claim_C5_message_only_offline.2.2.2.1
    [Event.settle (FetchResult.success backendHealthBody)]
    (by intro e he; simp only [List.mem_singleton] at he; subst he; exact rfl)
    backendHealthBody rfl

/-- C6: the two variants are behaviourally equivalent: same hardcoded base and
health URL, same synthesized offline fallback, identical badge text on every
display state, identical page-view runs, and the one GET each issues goes to
`http://localhost:8000/health`. -/
theorem claim_C6_variant_equivalence :
    Home.API_BASE = App.API_BASE
    ∧ Home.healthUrl = App.healthUrl
    ∧ Home.offlineFallback = App.offlineFallback
    ∧ Home.variant = App.variant
    ∧ (∀ (loading : Bool) (healthStatus : Option JsonVal),
        Home.badgeText loading healthStatus = App.chipLabel loading healthStatus)
    ∧ (∀ evs : List Event, run Home.variant evs = run App.variant evs)
    ∧ (∀ evs : List Event,
        (run Home.variant evs).requests = ["http://localhost:8000/health"]) := by
  refine ⟨rfl, rfl, rfl, rfl, fun l hs => rfl, fun evs => rfl, ?_⟩
  intro evs
  rw [run_requests Home.variant evs]
  decide

/-- C7: the resolved page view, and with it the rendered badge, is the same
whatever the cause of the rejection — the failure handler ignores the
rejection value, and nothing about the error reaches the state or the badge. -/
theorem claim_C7_error_cause_irrelevant :
    (∀ (v : Variant) (p : PageView) (e1 e2 : NetError),
        stepEv v p (Event.settle (FetchResult.failure e1))
          = stepEv v p (Event.settle (FetchResult.failure e2)))
    ∧ (∀ (v : Variant) (evs : List Event) (e1 e2 : NetError),
        run v (evs ++ [Event.settle (FetchResult.failure e1)])
          = run v (evs ++ [Event.settle (FetchResult.failure e2)]))
    ∧ (∀ (p : PageView) (e1 e2 : NetError),
        Home.badgeText (stepEv Home.variant p (Event.settle (FetchResult.failure e1))).loading
            (stepEv Home.variant p (Event.settle (FetchResult.failure e1))).healthStatus
          = Home.badgeText (stepEv Home.variant p (Event.settle (FetchResult.failure e2))).loading
            (stepEv Home.variant p (Event.settle (FetchResult.failure e2))).healthStatus
        ∧ App.chipLabel (stepEv App.variant p (Event.settle (FetchResult.failure e1))).loading
            (stepEv App.variant p (Event.settle (FetchResult.failure e1))).healthStatus
          = App.chipLabel (stepEv App.variant p (Event.settle (FetchResult.failure e2))).loading
            (stepEv App.variant p (Event.settle (FetchResult.failure e2))).healthStatus) := by
  refine ⟨fun v p e1 e2 => rfl, ?_, fun p e1 e2 => ⟨rfl, rfl⟩⟩
  intro v evs e1 e2
  rw [run_append_one, run_append_one]
  exact rfl

/-- C8: `healthStatus` starts absent with `loading = true` and no writes, every
reachable page view has at most one write to it, and once the request has
settled no event changes the page view at all — in both variants. -/
theorem claim_C8_write_once :
    (mount Home.variant).healthStatus = none
    ∧ (mount Home.variant).loading = true
    ∧ (mount Home.variant).hsWrites = 0
    ∧ (mount App.variant).healthStatus = none
    ∧ (mount App.variant).loading = true
    ∧ (mount App.variant).hsWrites = 0
    ∧ (∀ (v : Variant) (evs : List Event), (run v evs).hsWrites ≤ 1)
    ∧ (∀ (v : Variant) (p : PageView) (e : Event),
        p.pendingRequest = false → stepEv v p e = p) := by
  refine ⟨rfl, rfl, rfl, rfl, rfl, rfl, ?_, ?_⟩
  · intro v evs
    exact (run_hsWrites v evs).1
  · intro v p e h
    exact stepEv_of_settled v p e h

/-- C8 witness: a concrete settled page view is left unchanged by a further
settlement event. -/
theorem claim_C8_write_once_witness :
    stepEv Home.variant settledExample
      (Event.settle (FetchResult.failure NetError.timeout)) = settledExample :=
  claim_C8_write_once.2.2.2.2.2.2.2 Home.variant settledExample
    (Event.settle (FetchResult.failure NetError.timeout)) rfl

/-- C9: a successful settlement stores the parsed body verbatim — whatever its
shape — and clears `loading`; and any stored body whose `status` field is
absent, non-string, or not exactly `"healthy"` renders the fixed offline badge
text in both variants. -/
theorem claim_C9_verbatim_storage :
    (∀ (v : Variant) (n : Nat) (body : JsonVal),
        (run v (List.replicate n Event.rerender
            ++ [Event.settle (FetchResult.success body)])).healthStatus = some body
        ∧ (run v (List.replicate n Event.rerender
            ++ [Event.settle (FetchResult.success body)])).loading = false)
    ∧ (∀ body : JsonVal, getField body "status" ≠ some (JsonVal.str "healthy") →
        Home.badgeText false (some body) = "🔴 Backend Offline"
        ∧ App.chipLabel false (some body) = "🔴 Backend Offline") := by
  constructor
  · intro v n body
    rw [run_append_one, run_replicate_rerender]
    exact ⟨rfl, rfl⟩
  · intro body h
    have hb := statusIsHealthy_eq_false body h
    exact ⟨by simp [Home.badgeText, hb], by simp [App.chipLabel, hb]⟩

/-- C9 witness: the 2xx body `{ "status": "degraded" }` is not `"healthy"`, so
both variants render the offline badge despite the successful response. -/
theorem claim_C9_verbatim_storage_witness :
    Home.badgeText false (some (JsonVal.obj [("status", JsonVal.str "degraded")]))
      = "🔴 Backend Offline"
    ∧ App.chipLabel false (some (JsonVal.obj [("status", JsonVal.str "degraded")]))
      = "🔴 Backend Offline" :=
  claim_C9_verbatim_storage.2 (JsonVal.obj [("status", JsonVal.str "degraded")])
    (by simp [getField, lookupField])

/-- C10: the badge renderers are total: on every state combination, including
the out-of-lifecycle `loading = false, healthStatus = null`, they produce one
of the three fixed texts; on that null state both variants yield the offline
badge with the negative style rather than failing. -/
theorem claim_C10_total_badge :
    (∀ (loading : Bool) (healthStatus : Option JsonVal),
        Home.badgeText loading healthStatus = "Connecting..."
        ∨ Home.badgeText loading healthStatus = "🟢 Backend Connected"
        ∨ Home.badgeText loading healthStatus = "🔴 Backend Offline")
    ∧ (∀ (loading : Bool) (healthStatus : Option JsonVal),
        App.chipLabel loading healthStatus = "Connecting..."
        ∨ App.chipLabel loading healthStatus = "🟢 Backend Connected"
        ∨ App.chipLabel loading healthStatus = "🔴 Backend Offline")
    ∧ Home.badgeText false none = "🔴 Backend Offline"
    ∧ App.chipLabel false none = "🔴 Backend Offline"
    ∧ Home.badgeClass false none = "border-red-500 text-red-500"
    ∧ App.chipBorderColor none = "error.main"
    ∧ App.chipTextColor none = "error.main" := by
  refine ⟨?_, ?_, rfl, rfl, rfl, rfl, rfl⟩
  · intro l hs
    cases l with
    | true => exact Or.inl rfl
    | false =>
      cases h : statusIsHealthy hs with
      | true => exact Or.inr (Or.inl (by simp [Home.badgeText, h]))
      | false => exact Or.inr (Or.inr (by simp [Home.badgeText, h]))
  · intro l hs
    cases l with
    | true => exact Or.inl rfl
    | false =>
      cases h : statusIsHealthy hs with
      | true => exact Or.inr (Or.inl (by simp [App.chipLabel, h]))
      | false => exact Or.inr (Or.inr (by simp [App.chipLabel, h]))
